import Mathlib

/-!
Verification of the server-side WebSocket endpoint (`aiohttp/web_ws.py`).

The development shallowly embeds the source file:

* the handshake validator `WebSocketResponse._handshake` becomes the pure
  function `handshake` (with SHA-1 and base64, which the source delegates to
  the Python standard library, implemented executably);
* the stateful endpoint (`close`, `receive`, the heartbeat callbacks) becomes
  a record `WSState` of the slots of `WebSocketResponse`, together with pure
  transition functions.  Every point where the Python code awaits is
  parameterised by an environment value describing the outcome of that await
  (message delivered, timeout, cancellation, ...), so each theorem quantifies
  over the possible outcomes of the event loop.
* a labelled step relation `Step` / reachability relation `Reach` ties the
  operations together for invariant and trace-based statements.
-/

set_option maxRecDepth 4000

/-! ### Python string helpers (`str.lower`, `str.strip`, `in`, `split`) -/

/-- Python whitespace characters recognised by `str.strip()`. -/
def pyIsSpace (c : Char) : Bool :=
  c = ' ' || c = '\t' || c = '\n' || c = '\x0d' || c = '\x0b' || c = '\x0c'

/-- Python `str.strip()`: drop whitespace from both ends. -/
def pyStrip (s : String) : String :=
  String.mk (((s.toList.dropWhile pyIsSpace).reverse.dropWhile pyIsSpace).reverse)

/-- Python `str.lower()` restricted to ASCII (header values are ASCII). -/
def pyLower (s : String) : String :=
  String.mk (s.toList.map Char.toLower)

/-- Does `hay` start with `needle`? -/
def startsWithL : List Char → List Char → Bool
  | [], _ => true
  | _ :: _, [] => false
  | a :: as, b :: bs => a = b && startsWithL as bs

/-- Python `needle in hay` substring test on character lists. -/
def containsSub (needle : List Char) : List Char → Bool
  | [] => startsWithL needle []
  | c :: t => startsWithL needle (c :: t) || containsSub needle t

/-- Python `str.split(",")`, accumulator-based so the kernel evaluates it. -/
def splitCommaAux : List Char → List Char → List String
  | [], acc => [String.mk acc.reverse]
  | c :: t, acc =>
    if c = ',' then String.mk acc.reverse :: splitCommaAux t []
    else splitCommaAux t (c :: acc)

/-- Python `str.split(",")`. -/
def pySplitComma (s : String) : List String := splitCommaAux s.toList []

/-- ASCII bytes of a string (`str.encode()` for ASCII data). -/
def strToBytes (s : String) : List Nat := s.toList.map Char.toNat

/-! ### Base64 (`base64.b64encode` / `base64.b64decode`, Python stdlib) -/

/-- The base64 alphabet. -/
def b64Alphabet : List Char :=
  "ABCDEFGHIJKLMNOPQRSTUVWXYZabcdefghijklmnopqrstuvwxyz0123456789+/".toList

/-- The base64 digit for a 6-bit value. -/
def b64Char (n : Nat) : Char := b64Alphabet.getD n 'A'

/-- Encode bytes in groups of three, padding with `=`. -/
def b64encodeCore : List Nat → List Char
  | [] => []
  | [a] => [b64Char (a >>> 2), b64Char ((a % 4) <<< 4), '=', '=']
  | [a, b] => [b64Char (a >>> 2), b64Char (((a % 4) <<< 4) + (b >>> 4)),
               b64Char ((b % 16) <<< 2), '=']
  | a :: b :: c :: rest =>
    b64Char (a >>> 2) :: b64Char (((a % 4) <<< 4) + (b >>> 4)) ::
    b64Char (((b % 16) <<< 2) + (c >>> 6)) :: b64Char (c % 64) :: b64encodeCore rest

/-- `base64.b64encode(..).decode()`. -/
def b64encode (bs : List Nat) : String := String.mk (b64encodeCore bs)

/-- Value of one base64 digit, `none` for characters outside the alphabet. -/
def b64Val (c : Char) : Option Nat :=
  if 'A' ≤ c ∧ c ≤ 'Z' then some (c.toNat - 65)
  else if 'a' ≤ c ∧ c ≤ 'z' then some (c.toNat - 97 + 26)
  else if '0' ≤ c ∧ c ≤ '9' then some (c.toNat - 48 + 52)
  else if c = '+' then some 62
  else if c = '/' then some 63
  else none

/-- Decode filtered base64 text four characters at a time; `none` mirrors
`binascii.Error` (bad padding / stray data). -/
def b64decodeCore : List Char → Option (List Nat)
  | [] => some []
  | [a, b, '=', '='] => do
    let va ← b64Val a
    let vb ← b64Val b
    pure [((va <<< 2) + (vb >>> 4)) % 256]
  | [a, b, c, '='] => do
    let va ← b64Val a
    let vb ← b64Val b
    let vc ← b64Val c
    pure [((va <<< 2) + (vb >>> 4)) % 256, (((vb % 16) <<< 4) + (vc >>> 2)) % 256]
  | a :: b :: c :: d :: rest => do
    let va ← b64Val a
    let vb ← b64Val b
    let vc ← b64Val c
    let vd ← b64Val d
    let tl ← b64decodeCore rest
    pure (((va <<< 2) + (vb >>> 4)) % 256 :: (((vb % 16) <<< 4) + (vc >>> 2)) % 256 ::
          (((vc % 4) <<< 6) + vd) % 256 :: tl)
  | _ => none

/-- `base64.b64decode` with the default `validate=False`: characters outside
the alphabet (other than padding) are discarded before decoding. -/
def b64decodePy (s : String) : Option (List Nat) :=
  b64decodeCore (s.toList.filter (fun c => (b64Val c).isSome || c = '='))

/-! ### SHA-1 (`hashlib.sha1`, Python stdlib; RFC 3174) -/

/-- Reduce modulo `2 ^ 32`. -/
def mod32 (x : Nat) : Nat := x % 4294967296

/-- Rotate a 32-bit word left by `n` bits. -/
def rotl (n x : Nat) : Nat := mod32 (x <<< n) + (x >>> (32 - n))

/-- Big-endian bytes (most significant first) of `x`, `k` bytes wide. -/
def beBytes (k x : Nat) : List Nat :=
  (List.range k).map (fun i => (x >>> (8 * (k - 1 - i))) % 256)

/-- SHA-1 message padding: `0x80`, zeros to 56 mod 64, then the 64-bit
big-endian bit length. -/
def sha1pad (msg : List Nat) : List Nat :=
  let l := msg.length
  let z := (119 - l % 64) % 64
  msg ++ (128 :: List.replicate z 0) ++ beBytes 8 (8 * l)

/-- Split a byte list into 64-byte blocks (structural recursion on fuel so
that the kernel can evaluate it). -/
def chunk64Fuel : Nat → List Nat → List (List Nat)
  | 0, _ => []
  | _, [] => []
  | fuel + 1, l => l.take 64 :: chunk64Fuel fuel (l.drop 64)

/-- Split a byte list into 64-byte blocks. -/
def chunk64 (l : List Nat) : List (List Nat) := chunk64Fuel (l.length + 1) l

/-- Pack four bytes into a big-endian 32-bit word. -/
def beWord (a b c d : Nat) : Nat := ((a * 256 + b) * 256 + c) * 256 + d

/-- The sixteen 32-bit words of one 64-byte block. -/
def blockWords : List Nat → List Nat
  | a :: b :: c :: d :: rest => beWord a b c d :: blockWords rest
  | _ => []

/-- Extend sixteen schedule words to eighty. -/
def sha1Extend (ws : List Nat) : List Nat :=
  (List.range 64).foldl
    (fun acc j =>
      acc ++ [rotl 1 ((acc.getD (j + 13) 0) ^^^ (acc.getD (j + 8) 0) ^^^
                      (acc.getD (j + 2) 0) ^^^ (acc.getD j 0))])
    ws

/-- SHA-1 round function. -/
def sha1f (i b c d : Nat) : Nat :=
  if i < 20 then (b &&& c) ||| ((b ^^^ 4294967295) &&& d)
  else if i < 40 then b ^^^ c ^^^ d
  else if i < 60 then (b &&& c) ||| (b &&& d) ||| (c &&& d)
  else b ^^^ c ^^^ d

/-- SHA-1 round constants. -/
def sha1k (i : Nat) : Nat :=
  if i < 20 then 1518500249
  else if i < 40 then 1859775393
  else if i < 60 then 2400959708
  else 3395469782

/-- One SHA-1 round on the five-word working state. -/
def sha1Round (ws : List Nat) (st : Nat × Nat × Nat × Nat × Nat) (i : Nat) :
    Nat × Nat × Nat × Nat × Nat :=
  let (a, b, c, d, e) := st
  let t := mod32 (rotl 5 a + sha1f i b c d + e + sha1k i + ws.getD i 0)
  (t, a, rotl 30 b, c, d)

/-- Process one 64-byte block. -/
def sha1Block (h : Nat × Nat × Nat × Nat × Nat) (block : List Nat) :
    Nat × Nat × Nat × Nat × Nat :=
  let ws := sha1Extend (blockWords block)
  let (a, b, c, d, e) := (List.range 80).foldl (sha1Round ws) h
  let (h0, h1, h2, h3, h4) := h
  (mod32 (h0 + a), mod32 (h1 + b), mod32 (h2 + c), mod32 (h3 + d), mod32 (h4 + e))

/-- SHA-1 digest (20 bytes) of a byte string. -/
def sha1 (msg : List Nat) : List Nat :=
  let (h0, h1, h2, h3, h4) :=
    (chunk64 (sha1pad msg)).foldl sha1Block
      (1732584193, 4023233417, 2562383102, 271733878, 3285377520)
  beBytes 4 h0 ++ beBytes 4 h1 ++ beBytes 4 h2 ++ beBytes 4 h3 ++ beBytes 4 h4

/-! ### The handshake validator (`WebSocketResponse._handshake`) -/

/-- The WebSocket GUID.  Modelled from the spec: the constant `WS_KEY`
(defined in `aiohttp/http.py`, outside `src/`) equals this RFC 6455 GUID. -/
def WS_KEY_GUID : String := "258EAFA5-E914-47DA-95CA-C5AB0DC85B11"

/-- `base64(SHA1(ascii(key) || GUID))`, the accept token of lines 182-183. -/
def wsAccept (key : String) : String :=
  b64encode (sha1 (strToBytes key ++ strToBytes WS_KEY_GUID))

/-- The headers of an upgrade request that `_handshake` consults, each
`Option` because `headers.get` may miss (`method` is always present). -/
structure HSRequest where
  method : String
  upgrade : Option String
  connection : Option String
  secWebSocketVersion : Option String
  secWebSocketKey : Option String
  secWebSocketProtocol : Option String
  secWebSocketExtensions : Option String
deriving DecidableEq

/-- The HTTP rejections `_handshake` can raise. -/
inductive HSError
  | methodNotAllowed
  | badRequest
deriving DecidableEq

/-- Successful handshake output: response headers, negotiated subprotocol,
compression level and the no-context-takeover flag (lines 203-206). -/
structure HSOk where
  responseHeaders : List (String × String)
  protocol : Option String
  compress : Nat
  notakeover : Bool
deriving DecidableEq

deriving instance DecidableEq for Except

/-- Lines 152-164: split `Sec-WebSocket-Protocol` on commas, strip each
token, pick the first client-offered token in the server list. -/
def negotiateProtocol (protocols : List String) (hdr : Option String) :
    Option String :=
  match hdr with
  | none => none
  | some h => ((pySplitComma h).map pyStrip).find? (fun p => protocols.contains p)

/-- Line 139: the `Upgrade` header must equal `websocket` after lower/strip. -/
def upgradeOk (req : HSRequest) : Bool :=
  pyStrip (pyLower (req.upgrade.getD "")) = "websocket"

/-- Line 145: the `Connection` header must contain `upgrade`. -/
def connectionOk (req : HSRequest) : Bool :=
  containsSub "upgrade".toList (pyLower (req.connection.getD "")).toList

/-- Lines 167-168: the version must be 13, 8 or 7. -/
def versionOk (req : HSRequest) : Bool :=
  let v := req.secWebSocketVersion.getD ""
  v = "13" || v = "8" || v = "7"

/-- Lines 173-180: the key must be present, non-empty, base64-decodable, and
decode to exactly 16 bytes. -/
def validWSKey : Option String → Bool
  | none => false
  | some k =>
    k ≠ "" &&
      (match b64decodePy k with
       | none => false
       | some bs => bs.length = 16)

/-- Python truthiness of the negotiated protocol (`if protocol:` line 201):
`None` and the empty string are falsy. -/
def protocolTruthy : Option String → Bool
  | none => false
  | some p => p ≠ ""

/-- The successful-handshake output of lines 182-206.  `extParse` and
`extGen` stand for `ws_ext_parse` / `ws_ext_gen` (defined in
`aiohttp/http.py`, outside `src/`) and are taken as parameters. -/
def handshakeOut (protocols : List String) (compressOn : Bool)
    (extParse : Option String → Nat × Bool) (extGen : Nat → Bool → String)
    (req : HSRequest) : HSOk :=
  let protocol := negotiateProtocol protocols req.secWebSocketProtocol
  let acceptVal := wsAccept (req.secWebSocketKey.getD "")
  let pr := if compressOn then extParse req.secWebSocketExtensions else (0, false)
  let baseHeaders := [("Upgrade", "websocket"), ("Connection", "upgrade"),
                      ("Sec-WebSocket-Accept", acceptVal)]
  let headers2 :=
    if pr.1 ≠ 0 then
      baseHeaders ++ [("Sec-Websocket-Extensions", extGen pr.1 pr.2)]
    else baseHeaders
  let headers3 :=
    if protocolTruthy protocol then
      headers2 ++ [("Sec-WebSocket-Protocol", protocol.getD "")]
    else headers2
  ⟨headers3, protocol, pr.1, pr.2⟩

/-- `WebSocketResponse._handshake` (lines 132-206).  The subprotocol is
computed before the version/key checks in the source; being pure, it is
folded into `handshakeOut` without observable difference. -/
def handshake (protocols : List String) (compressOn : Bool)
    (extParse : Option String → Nat × Bool) (extGen : Nat → Bool → String)
    (req : HSRequest) : Except HSError HSOk :=
  if req.method ≠ "GET" then .error .methodNotAllowed
  else if ¬ upgradeOk req then .error .badRequest
  else if ¬ connectionOk req then .error .badRequest
  else if ¬ versionOk req then .error .badRequest
  else if ¬ validWSKey req.secWebSocketKey then .error .badRequest
  else .ok (handshakeOut protocols compressOn extParse extGen req)

/-- First response header with the given (exact) name. -/
def headerGet (hs : List (String × String)) (name : String) : Option String :=
  (hs.find? (fun p => p.1 == name)).map Prod.snd

/-! ### The endpoint state machine (`WebSocketResponse`)

The record `WSState` holds the `__slots__` of `WebSocketResponse` that the
claims are about.  Writer, reader, payload writer, request/transport and the
timer handles are abstracted to presence/armed booleans; the negotiated
protocol and compression are irrelevant to the stateful claims and omitted.
-/

/-- Message kinds (`WSMsgType`). -/
inductive MsgKind
  | txt
  | binary
  | ping
  | pong
  | closeK
  | closingK
  | closedK
  | errorK
deriving DecidableEq

/-- A framed message as delivered by the reader queue.  `data` carries the
close code for CLOSE messages and is `none` for the sentinels. -/
structure WSMsg where
  type : MsgKind
  data : Option Nat
deriving DecidableEq

/-- `WS_CLOSED_MESSAGE`. -/
def WS_CLOSED_MESSAGE : WSMsg := ⟨.closedK, none⟩

/-- `WS_CLOSING_MESSAGE`. -/
def WS_CLOSING_MESSAGE : WSMsg := ⟨.closingK, none⟩

/-- Line 35. -/
def THRESHOLD_CONNLOST_ACCESS : Nat := 5

/-- Values recorded in `self._exception`. -/
inductive ExcVal
  | timeoutE
  | genericE
  | wsE (code : Nat)
deriving DecidableEq

/-- Exceptions that escape `receive`/`close` to the caller. -/
inductive PyErr
  | notPrepared
  | concurrent
  | connClosed
  | cancelled
  | timedOut
deriving DecidableEq

/-- Outcome of one awaited write-side step (`writer.close`, `drain`). -/
inductive OpRes
  | ok
  | cancelled
  | timedOut
  | errored
deriving DecidableEq

/-- Outcome of one awaited `reader.read()` (under a timeout context). -/
inductive ReadRes
  | msg (m : WSMsg)
  | cancelled
  | timedOut
  | eof
  | wsErr (code : Nat)
  | errored
deriving DecidableEq

/-- Environment for one `close()` call: outcomes of its awaited steps. -/
structure CloseEnv where
  writerClose : OpRes
  drain : OpRes
  read : ReadRes
deriving DecidableEq

/-- Environment for one `receive()` iteration: the outcome of the awaited
read and the environment of a nested `close()` call, if any. -/
structure RecvEnv where
  read : ReadRes
  closeEnv : CloseEnv
deriving DecidableEq

/-- The endpoint state: the `__slots__` of `WebSocketResponse` relevant to
the claims, plus transport bookkeeping. -/
structure WSState where
  closed : Bool
  closing : Bool
  connLost : Nat
  closeCode : Option Nat
  exc : Option ExcVal
  hasWriter : Bool
  hasReader : Bool
  hasPayloadWriter : Bool
  waiting : Bool
  heartbeat : Option Rat
  heartbeatArmed : Bool
  pongArmed : Bool
  autoclose : Bool
  autoping : Bool
  hasTransport : Bool
  transportClosed : Bool
  timeout : Rat
  receiveTimeout : Option Rat
  eofSent : Bool
deriving DecidableEq

/-- `__init__` (lines 54-83): the freshly constructed endpoint. -/
def initState (timeout : Rat) (receiveTimeout : Option Rat)
    (autoclose autoping : Bool) (heartbeat : Option Rat) : WSState :=
  { closed := false, closing := false, connLost := 0, closeCode := none,
    exc := none, hasWriter := false, hasReader := false,
    hasPayloadWriter := false, waiting := false, heartbeat := heartbeat,
    heartbeatArmed := false, pongArmed := false, autoclose := autoclose,
    autoping := autoping, hasTransport := false, transportClosed := false,
    timeout := timeout, receiveTimeout := receiveTimeout, eofSent := false }

/-- `_cancel_heartbeat` (lines 85-92). -/
def cancelHeartbeat (s : WSState) : WSState :=
  { s with heartbeatArmed := false, pongArmed := false }

/-- `_reset_heartbeat` (lines 94-99): cancel both timers, then re-arm the
ping timer when a heartbeat is configured. -/
def resetHeartbeat (s : WSState) : WSState :=
  let s1 := cancelHeartbeat s
  if s1.heartbeat.isSome then { s1 with heartbeatArmed := true } else s1

/-- `_send_heartbeat` (lines 101-111), run when the ping timer fires (so the
ping timer is spent).  When a heartbeat is configured and the endpoint is not
closed, a ping is dispatched fire-and-forget and the pong-deadline timer is
armed. -/
def sendHeartbeat (s : WSState) : WSState :=
  let s1 := { s with heartbeatArmed := false }
  if s1.heartbeat.isSome ∧ ¬ s1.closed then { s1 with pongArmed := true } else s1

/-- `_pong_not_received` (lines 113-118), run when the pong-deadline timer
fires (so that timer is spent). -/
def pongNotReceived (s : WSState) : WSState :=
  let s1 := { s with pongArmed := false }
  if s1.hasTransport then
    { s1 with closed := true, closeCode := some 1006, exc := some .timeoutE,
              transportClosed := true }
  else s1

/-- `prepare`/`_pre_start`/`_post_start` (lines 120-240) on success: attach
writer, reader and payload writer, record the transport, reset heartbeat. -/
def prepareStep (s : WSState) : WSState :=
  resetHeartbeat
    { s with hasWriter := true, hasReader := true, hasPayloadWriter := true,
             hasTransport := true }

/-- Result of a `close()` call: a returned boolean or a raised exception,
with the endpoint state either way. -/
inductive CloseOut
  | ret (b : Bool) (s : WSState)
  | raise (e : PyErr) (s : WSState)
deriving DecidableEq

/-- The state component of a close outcome. -/
def CloseOut.state : CloseOut → WSState
  | .ret _ s => s
  | .raise _ s => s

/-- Lines 325-364 of `close()`: the part after the reader interlock.  The
`code` argument only shapes the close frame put on the wire, so it does not
appear in the resulting state. -/
def closeBody (s : WSState) (env : CloseEnv) : CloseOut :=
  if s.closed then .ret false s
  else
    let s1 := { s with closed := true }
    match env with
    | ⟨.cancelled, _, _⟩ => .raise .cancelled { s1 with closeCode := some 1006 }
    | ⟨.timedOut, _, _⟩ => .raise .timedOut { s1 with closeCode := some 1006 }
    | ⟨.errored, _, _⟩ => .ret true { s1 with closeCode := some 1006, exc := some .genericE }
    | ⟨.ok, .cancelled, _⟩ => .raise .cancelled { s1 with closeCode := some 1006 }
    | ⟨.ok, .timedOut, _⟩ => .raise .timedOut { s1 with closeCode := some 1006 }
    | ⟨.ok, .errored, _⟩ => .ret true { s1 with closeCode := some 1006, exc := some .genericE }
    | ⟨.ok, .ok, rd⟩ =>
      if s1.closing then .ret true s1
      else
        match rd with
        | .cancelled => .raise .cancelled { s1 with closeCode := some 1006 }
        | .timedOut => .ret true { s1 with closeCode := some 1006, exc := some .timeoutE }
        | .eof => .ret true { s1 with closeCode := some 1006, exc := some .genericE }
        | .wsErr c => .ret true { s1 with closeCode := some 1006, exc := some (.wsE c) }
        | .errored => .ret true { s1 with closeCode := some 1006, exc := some .genericE }
        | .msg m =>
          if m.type = .closeK then .ret true { s1 with closeCode := m.data }
          else .ret true { s1 with closeCode := some 1006, exc := some .timeoutE }

/-- `close()` (lines 311-364) when no receive is suspended (the interlock of
lines 321-323 does not fire): the writer must be attached, the heartbeat
timers are cancelled, then the body runs. -/
def close (s : WSState) (env : CloseEnv) : CloseOut :=
  if ¬ s.hasWriter then .raise .notPrepared s
  else closeBody (cancelHeartbeat s) env

/-- A nested `await self.close(...)` from inside `receive` (the in-flight
waiter has already been cleared, so the interlock is skipped). -/
def closeFromReceive (s : WSState) (env : CloseEnv) : CloseOut :=
  if ¬ s.hasWriter then .raise .notPrepared s
  else closeBody (cancelHeartbeat s) env

/-- Result of a `receive()` iteration: a returned message, a raised
exception, or looping back (swallowed PING/PONG under autoping). -/
inductive RecvOut
  | ret (m : WSMsg) (s : WSState)
  | raise (e : PyErr) (s : WSState)
  | loop (s : WSState)
deriving DecidableEq

/-- The state component of a receive outcome. -/
def RecvOut.state : RecvOut → WSState
  | .ret _ s => s
  | .raise _ s => s
  | .loop s => s

/-- The returned message of a receive outcome, if it returned one. -/
def RecvOut.retMsg : RecvOut → Option WSMsg
  | .ret m _ => some m
  | _ => none

/-- Propagate a nested `close()` outcome inside `receive`: a raised
exception propagates, otherwise `receive` returns message `m`. -/
def afterClose (m : WSMsg) : CloseOut → RecvOut
  | .raise e s2 => .raise e s2
  | .ret _ s2 => .ret m s2

/-- Lines 385-427: the body of `receive` once the waiter is installed
(`s.waiting = true` on entry).  The `finally` of lines 392-395 resolves and
clears the waiter on every path; `_reset_heartbeat` runs only when the read
delivered a message. -/
def recvAwait (s : WSState) (env : RecvEnv) : RecvOut :=
  match env with
  | ⟨.cancelled, _⟩ => .raise .cancelled { s with waiting := false, closeCode := some 1006 }
  | ⟨.timedOut, _⟩ => .raise .timedOut { s with waiting := false, closeCode := some 1006 }
  | ⟨.eof, cenv⟩ =>
    afterClose ⟨.closedK, none⟩
      (closeFromReceive { s with waiting := false, closeCode := some 1000 } cenv)
  | ⟨.wsErr c, cenv⟩ =>
    afterClose ⟨.errorK, none⟩
      (closeFromReceive { s with waiting := false, closeCode := some c } cenv)
  | ⟨.errored, cenv⟩ =>
    afterClose ⟨.errorK, none⟩
      (closeFromReceive
        { s with waiting := false, exc := some .genericE, closing := true,
                 closeCode := some 1006 } cenv)
  | ⟨.msg m, cenv⟩ =>
    let s1 := { resetHeartbeat s with waiting := false }
    if m.type = .closeK then
      let s2 := { s1 with closing := true, closeCode := m.data }
      if ¬ s2.closed ∧ s2.autoclose then afterClose m (closeFromReceive s2 cenv)
      else .ret m s2
    else if m.type = .closingK then .ret m { s1 with closing := true }
    else if m.type = .ping ∧ s1.autoping then .loop s1
    else if m.type = .pong ∧ s1.autoping then .loop s1
    else .ret m s1

/-- One iteration of `receive()` (lines 366-427): the pre-await checks of
lines 367-383, then the awaited body. -/
def recvIter (s : WSState) (env : RecvEnv) : RecvOut :=
  if ¬ s.hasReader then .raise .notPrepared s
  else if s.waiting then .raise .concurrent s
  else if s.closed then
    let s1 := { s with connLost := s.connLost + 1 }
    if THRESHOLD_CONNLOST_ACCESS ≤ s1.connLost then .raise .connClosed s1
    else .ret WS_CLOSED_MESSAGE s1
  else if s.closing then .ret WS_CLOSING_MESSAGE s
  else recvAwait { s with waiting := true } env

/-- The state seen by `close()` after its interlock (lines 321-323) woke a
suspended receive: the receive's awaited read completes (with `renv`) and its
post-processing runs; if it looped back it re-installs the waiter. -/
def raceMid (s : WSState) (renv : RecvEnv) : WSState :=
  match recvAwait s renv with
  | .loop s1 => { s1 with waiting := true }
  | o => o.state

/-- `close()` when a receive is suspended and the endpoint is not closed
(lines 321-323): cancel heartbeat, feed `WS_CLOSING_MESSAGE`, await the
waiter (running the suspended receive to completion), then the body. -/
def closeInterlocked (s : WSState) (renv : RecvEnv) (env : CloseEnv) : CloseOut :=
  if ¬ s.hasWriter then .raise .notPrepared s
  else closeBody (raceMid (cancelHeartbeat s) renv) env

/-- `write_eof` (lines 302-309): returns at once when EOF was already sent,
otherwise delegates to `close()` and marks EOF sent (unless close raised). -/
def writeEofState (s : WSState) (env : CloseEnv) : WSState :=
  if s.eofSent then s
  else if ¬ s.hasPayloadWriter then s
  else
    match close s env with
    | .ret _ s1 => { s1 with eofSent := true }
    | .raise _ s1 => s1

/-- Line 389: the deadline of the awaited read in `receive` is
`timeout or self._receive_timeout` - Python truthiness, so an explicit
`0` falls through to the configured `receive_timeout`. -/
def pyTruthy : Option Rat → Bool
  | none => false
  | some x => x ≠ 0

/-- The effective deadline used by `receive` (line 388-389). -/
def receiveEffectiveTimeout (t rt : Option Rat) : Option Rat :=
  if pyTruthy t then t else rt

/-- CLOSE frames delivered by the framing reader always carry an integer
code.  Modelled from the spec: the framing codec (`aiohttp/http.py`, outside
`src/`) yields `(type, data, extra)` with a close code for CLOSE records. -/
def msgWF (m : WSMsg) : Prop := m.type = .closeK → m.data.isSome

/-- Well-formedness of a read outcome. -/
def readWF : ReadRes → Prop
  | .msg m => msgWF m
  | _ => True

/-- Well-formedness of a close environment. -/
def closeEnvWF (e : CloseEnv) : Prop := readWF e.read

/-- Well-formedness of a receive environment. -/
def recvEnvWF (e : RecvEnv) : Prop := readWF e.read ∧ closeEnvWF e.closeEnv

instance (m : WSMsg) : Decidable (msgWF m) := by
  unfold msgWF
  infer_instance

instance (r : ReadRes) : Decidable (readWF r) := by
  cases r <;> simp only [readWF] <;> infer_instance

instance (e : CloseEnv) : Decidable (closeEnvWF e) := by
  unfold closeEnvWF
  infer_instance

instance (e : RecvEnv) : Decidable (recvEnvWF e) := by
  unfold recvEnvWF
  infer_instance

/-! ### Labelled transitions and reachability -/

/-- Labels of the public operations (and timer callbacks). -/
inductive Label
  | prepareL
  | recvStartL
  | recvFinishL (env : RecvEnv)
  | recvL (env : RecvEnv)
  | closeL (env : CloseEnv)
  | closeRaceL (renv : RecvEnv) (env : CloseEnv)
  | writeEofL (env : CloseEnv)
  | hbFireL
  | pongFireL

/-- One completed public operation (or timer callback), as a labelled
transition on endpoint states. -/
inductive Step : WSState → Label → WSState → Prop
  | prepareS (s : WSState) (h : s.hasPayloadWriter = false) :
      Step s .prepareL (prepareStep s)
  | recvStartS (s : WSState) (h1 : s.hasReader = true) (h2 : s.waiting = false)
      (h3 : s.closed = false) (h4 : s.closing = false) :
      Step s .recvStartL { s with waiting := true }
  | recvFinishS (s : WSState) (env : RecvEnv) (h : s.waiting = true)
      (hw : recvEnvWF env) :
      Step s (.recvFinishL env) (RecvOut.state (recvAwait s env))
  | recvS (s : WSState) (env : RecvEnv) (h : s.waiting = false)
      (hw : recvEnvWF env) :
      Step s (.recvL env) (RecvOut.state (recvIter s env))
  | closeS (s : WSState) (env : CloseEnv)
      (h : s.waiting = false ∨ s.closed = true) (hw : closeEnvWF env) :
      Step s (.closeL env) (CloseOut.state (close s env))
  | closeRaceS (s : WSState) (renv : RecvEnv) (env : CloseEnv)
      (h1 : s.waiting = true) (h2 : s.closed = false)
      (hw1 : recvEnvWF renv) (hw2 : closeEnvWF env) :
      Step s (.closeRaceL renv env) (CloseOut.state (closeInterlocked s renv env))
  | writeEofS (s : WSState) (env : CloseEnv) (h : s.waiting = false)
      (hw : closeEnvWF env) :
      Step s (.writeEofL env) (writeEofState s env)
  | hbFireS (s : WSState) (h : s.heartbeatArmed = true) :
      Step s .hbFireL (sendHeartbeat s)
  | pongFireS (s : WSState) (h : s.pongArmed = true) :
      Step s .pongFireL (pongNotReceived s)

/-- States reachable from a fresh endpoint by completing public operations,
with the trace of operation labels. -/
inductive Reach : WSState → List Label → Prop
  | init (timeout : Rat) (receiveTimeout : Option Rat)
      (autoclose autoping : Bool) (heartbeat : Option Rat) :
      Reach (initState timeout receiveTimeout autoclose autoping heartbeat) []
  | step (s : WSState) (tr : List Label) (l : Label) (s1 : WSState)
      (h : Reach s tr) (hs : Step s l s1) : Reach s1 (tr ++ [l])

/-! ### Concrete instances used by witnesses and counterexamples -/

/-- The sample key of RFC 6455 section 1.3 (spec scenario S1). -/
def sampleKey : String := "dGhlIHNhbXBsZSBub25jZQ=="

/-- Extension negotiation that yields no compression. -/
def noExtParse : Option String → Nat × Bool := fun _ => (0, false)

/-- Extension header generator (unused when compression is off). -/
def noExtGen : Nat → Bool → String := fun _ _ => ""

/-- Scenario S1: a plain valid handshake request. -/
def sampleRequest : HSRequest :=
  ⟨"GET", some "websocket", some "Upgrade", some "13", some sampleKey, none, none⟩

/-- The handshake output for `sampleRequest`. -/
def sampleOut : HSOk := handshakeOut [] false noExtParse noExtGen sampleRequest

/-- Scenario S4: the client offers two subprotocols. -/
def protoRequest : HSRequest :=
  ⟨"GET", some "websocket", some "Upgrade", some "13", some sampleKey,
   some "chat.v1, chat.v2", none⟩

/-- The handshake output for `protoRequest` with the S4 server list. -/
def protoOut : HSOk :=
  handshakeOut ["chat.v2", "chat.v1"] false noExtParse noExtGen protoRequest

/-- A client offer that overlaps none of the server protocols. -/
def noOverlapRequest : HSRequest :=
  ⟨"GET", some "websocket", some "Upgrade", some "13", some sampleKey,
   some "other.proto", none⟩

/-- The handshake output for `noOverlapRequest` with the S4 server list. -/
def noOverlapOut : HSOk :=
  handshakeOut ["chat.v2", "chat.v1"] false noExtParse noExtGen noOverlapRequest

/-- A close environment in which every awaited step succeeds and the peer
answers the close frame with CLOSE 1000. -/
def happyCloseEnv : CloseEnv := ⟨.ok, .ok, .msg ⟨.closeK, some 1000⟩⟩

/-- A freshly prepared endpoint with default options and no heartbeat. -/
def demoPrepared : WSState := prepareStep (initState 10 none true true none)

/-- A freshly prepared endpoint with a 1-second heartbeat. -/
def demoPreparedHB : WSState := prepareStep (initState 10 none true true (some 1))

/-- Endpoint closed by the pong-deadline timer (ping timer fired, no pong in
time), before any `close()` call. -/
def demoPongClosed : WSState := pongNotReceived (sendHeartbeat demoPreparedHB)

/-- A receive environment whose read yields the injected CLOSING sentinel. -/
def sentinelEnv : RecvEnv := ⟨.msg WS_CLOSING_MESSAGE, happyCloseEnv⟩

/-- State after `close()` raced an in-flight `receive()` (the interlock of
lines 321-323) on a default endpoint: the woken receive consumes the
sentinel, then the close body runs with `closing` already set. -/
def demoRaceState : WSState :=
  CloseOut.state (closeInterlocked { demoPrepared with waiting := true }
    sentinelEnv happyCloseEnv)

/-- The same race on an endpoint with a configured heartbeat: the woken
receive re-arms the ping timer before `close()` finishes. -/
def demoRaceStateHB : WSState :=
  CloseOut.state (closeInterlocked { demoPreparedHB with waiting := true }
    sentinelEnv happyCloseEnv)

/-- State after a `receive()` whose awaited read timed out, on a heartbeat
endpoint whose ping timer had fired during the wait. -/
def demoRecvTimeout : WSState :=
  RecvOut.state (recvAwait (sendHeartbeat { demoPreparedHB with waiting := true })
    ⟨.timedOut, happyCloseEnv⟩)

/-! ### Helper lemmas: projections, `closed` monotonicity, the invariant -/

/-- SHA-1 sanity check on the standard test vector. -/
theorem sha1_abc :
    sha1 (strToBytes "abc") =
      [169, 153, 62, 54, 71, 6, 129, 106, 186, 62, 37, 113, 120, 80, 194, 108,
       156, 208, 216, 157] := by decide

theorem cancelHeartbeat_closed (s : WSState) :
    (cancelHeartbeat s).closed = s.closed := rfl

theorem cancelHeartbeat_closing (s : WSState) :
    (cancelHeartbeat s).closing = s.closing := rfl

theorem cancelHeartbeat_closeCode (s : WSState) :
    (cancelHeartbeat s).closeCode = s.closeCode := rfl

theorem cancelHeartbeat_waiting (s : WSState) :
    (cancelHeartbeat s).waiting = s.waiting := rfl

theorem resetHeartbeat_closed (s : WSState) :
    (resetHeartbeat s).closed = s.closed := by
  simp only [resetHeartbeat]
  split <;> rfl

theorem resetHeartbeat_closing (s : WSState) :
    (resetHeartbeat s).closing = s.closing := by
  simp only [resetHeartbeat]
  split <;> rfl

theorem resetHeartbeat_closeCode (s : WSState) :
    (resetHeartbeat s).closeCode = s.closeCode := by
  simp only [resetHeartbeat]
  split <;> rfl

theorem resetHeartbeat_autoclose (s : WSState) :
    (resetHeartbeat s).autoclose = s.autoclose := by
  simp only [resetHeartbeat]
  split <;> rfl

theorem resetHeartbeat_hasWriter (s : WSState) :
    (resetHeartbeat s).hasWriter = s.hasWriter := by
  simp only [resetHeartbeat]
  split <;> rfl

theorem afterClose_state (m : WSMsg) (c : CloseOut) :
    (afterClose m c).state = c.state := by
  cases c <;> rfl

theorem closeBody_closed_mono (s : WSState) (env : CloseEnv)
    (h : s.closed = true) : (closeBody s env).state.closed = true := by
  unfold closeBody
  simp [h, CloseOut.state]

theorem closeBody_sets_closed (s : WSState) (env : CloseEnv)
    (h : s.closed = false) : (closeBody s env).state.closed = true := by
  rcases env with ⟨wc, dr, rd⟩
  cases wc <;> cases dr <;> cases rd <;>
    simp only [closeBody, h, Bool.false_eq_true, if_false] <;>
    (repeat' split) <;> rfl

theorem closeBody_closed (s : WSState) (env : CloseEnv) (h : s.closed = true) :
    closeBody s env = .ret false s := by
  unfold closeBody
  simp [h]

theorem closeFromReceive_closed_mono (s : WSState) (env : CloseEnv)
    (h : s.closed = true) : (closeFromReceive s env).state.closed = true := by
  unfold closeFromReceive
  split
  · simpa [CloseOut.state]
  · exact closeBody_closed_mono _ env (by simpa [cancelHeartbeat_closed] using h)

theorem recvAwait_closed_mono (s : WSState) (env : RecvEnv)
    (h : s.closed = true) : (recvAwait s env).state.closed = true := by
  rcases env with ⟨rd, cenv⟩
  cases rd <;> simp only [recvAwait, afterClose_state]
  case cancelled => exact h
  case timedOut => exact h
  case eof => exact closeFromReceive_closed_mono _ _ h
  case wsErr c => exact closeFromReceive_closed_mono _ _ h
  case errored => exact closeFromReceive_closed_mono _ _ h
  case msg m =>
    split
    · split
      · rw [afterClose_state]
        exact closeFromReceive_closed_mono _ _ (by simpa [resetHeartbeat_closed] using h)
      · simpa [RecvOut.state, resetHeartbeat_closed] using h
    · split
      · simpa [RecvOut.state, resetHeartbeat_closed] using h
      · split
        · simpa [RecvOut.state, resetHeartbeat_closed] using h
        · split
          · simpa [RecvOut.state, resetHeartbeat_closed] using h
          · simpa [RecvOut.state, resetHeartbeat_closed] using h

theorem recvIter_closed_mono (s : WSState) (env : RecvEnv)
    (h : s.closed = true) : (recvIter s env).state.closed = true := by
  unfold recvIter
  split
  · exact h
  · split
    · exact h
    · dsimp only
      split
      · exact h
      · exact h

theorem close_closed_mono (s : WSState) (env : CloseEnv)
    (h : s.closed = true) : (close s env).state.closed = true := by
  unfold close
  split
  · exact h
  · exact closeBody_closed_mono _ env (by simpa [cancelHeartbeat_closed] using h)

theorem raceMid_closed_mono (s : WSState) (renv : RecvEnv)
    (h : s.closed = true) : (raceMid s renv).closed = true := by
  unfold raceMid
  have hm := recvAwait_closed_mono s renv h
  split
  · rename_i s1 heq
    rw [heq] at hm
    simpa [RecvOut.state] using hm
  · exact hm

theorem closeInterlocked_closed_mono (s : WSState) (renv : RecvEnv)
    (env : CloseEnv) (h : s.closed = true) :
    (closeInterlocked s renv env).state.closed = true := by
  unfold closeInterlocked
  split
  · exact h
  · exact closeBody_closed_mono _ env
      (raceMid_closed_mono _ renv (by simpa [cancelHeartbeat_closed] using h))

theorem writeEofState_closed_mono (s : WSState) (env : CloseEnv)
    (h : s.closed = true) : (writeEofState s env).closed = true := by
  unfold writeEofState
  have hm := close_closed_mono s env h
  split
  · exact h
  · split
    · exact h
    · split
      · rename_i heq
        rw [heq] at hm
        simpa [CloseOut.state] using hm
      · rename_i heq
        rw [heq] at hm
        simpa [CloseOut.state] using hm

theorem prepareStep_closed (s : WSState) :
    (prepareStep s).closed = s.closed := by
  unfold prepareStep
  rw [resetHeartbeat_closed]

theorem sendHeartbeat_closed (s : WSState) :
    (sendHeartbeat s).closed = s.closed := by
  simp only [sendHeartbeat]
  split <;> rfl

theorem pongNotReceived_closed_mono (s : WSState) (h : s.closed = true) :
    (pongNotReceived s).closed = true := by
  simp only [pongNotReceived]
  split <;> simp_all

/-- `closed` never reverts to `false`: every modelled transition preserves
it. -/
theorem step_closed_mono (s : WSState) (l : Label) (s1 : WSState)
    (hs : Step s l s1) (h : s.closed = true) : s1.closed = true := by
  cases hs
  case prepareS => simpa [prepareStep_closed] using h
  case recvStartS => simpa using h
  case recvFinishS env _ _ => exact recvAwait_closed_mono s env h
  case recvS env _ _ => exact recvIter_closed_mono s env h
  case closeS env _ _ => exact close_closed_mono s env h
  case closeRaceS renv env _ _ _ _ => exact closeInterlocked_closed_mono s renv env h
  case writeEofS env _ _ => exact writeEofState_closed_mono s env h
  case hbFireS _ => simpa [sendHeartbeat_closed] using h
  case pongFireS _ => exact pongNotReceived_closed_mono s h

/-- The close-code invariant that the code actually maintains: whenever
`closed` holds, either a close code is recorded or `closing` is set. -/
def WsInv (s : WSState) : Prop :=
  s.closed = true → (s.closeCode.isSome = true ∨ s.closing = true)

theorem closeBody_inv (s : WSState) (env : CloseEnv) (hinv : WsInv s)
    (hwf : closeEnvWF env) : WsInv (closeBody s env).state := by
  by_cases hc : s.closed = true
  · rw [closeBody_closed s env hc]
    exact hinv
  · have hc0 : s.closed = false := by simpa using hc
    rcases env with ⟨wc, dr, rd⟩
    cases wc <;> cases dr <;> cases rd <;>
      simp only [closeBody, hc0, Bool.false_eq_true, if_false] <;>
      (repeat' split) <;>
      intro hcl <;>
      simp_all [closeEnvWF, readWF, msgWF, CloseOut.state, WsInv]

theorem closeFromReceive_inv (s : WSState) (env : CloseEnv) (hinv : WsInv s)
    (hwf : closeEnvWF env) : WsInv (closeFromReceive s env).state := by
  unfold closeFromReceive
  split
  · exact hinv
  · refine closeBody_inv _ env ?_ hwf
    intro hcl
    exact hinv (by simpa [cancelHeartbeat_closed] using hcl)

theorem recvAwait_inv (s : WSState) (env : RecvEnv) (hinv : WsInv s)
    (hwf : recvEnvWF env) : WsInv (recvAwait s env).state := by
  rcases env with ⟨rd, cenv⟩
  rcases hwf with ⟨hwr, hwc⟩
  cases rd <;> simp only [recvAwait, afterClose_state]
  case cancelled => intro _; simp [RecvOut.state]
  case timedOut => intro _; simp [RecvOut.state]
  case eof =>
    refine closeFromReceive_inv _ _ ?_ hwc
    intro _; simp
  case wsErr c =>
    refine closeFromReceive_inv _ _ ?_ hwc
    intro _; simp
  case errored =>
    refine closeFromReceive_inv _ _ ?_ hwc
    intro _; simp
  case msg m =>
    split
    · split
      · rw [afterClose_state]
        refine closeFromReceive_inv _ _ ?_ hwc
        intro _; simp
      · intro _; simp [RecvOut.state]
    · split
      · intro _; simp [RecvOut.state]
      · split
        · intro hcl
          have := hinv (by simpa [resetHeartbeat_closed] using hcl)
          simpa [RecvOut.state, resetHeartbeat_closeCode, resetHeartbeat_closing] using this
        · split
          · intro hcl
            have := hinv (by simpa [resetHeartbeat_closed] using hcl)
            simpa [RecvOut.state, resetHeartbeat_closeCode, resetHeartbeat_closing] using this
          · intro hcl
            have := hinv (by simpa [resetHeartbeat_closed] using hcl)
            simpa [RecvOut.state, resetHeartbeat_closeCode, resetHeartbeat_closing] using this

theorem recvIter_inv (s : WSState) (env : RecvEnv) (hinv : WsInv s)
    (hwf : recvEnvWF env) : WsInv (recvIter s env).state := by
  unfold recvIter
  split
  · exact hinv
  · split
    · exact hinv
    · split
      · dsimp only
        split
        · intro hcl
          simpa [WsInv] using hinv (by simpa using hcl)
        · intro hcl
          simpa [WsInv] using hinv (by simpa using hcl)
      · split
        · exact hinv
        · refine recvAwait_inv _ env ?_ hwf
          intro hcl
          exact hinv (by simpa using hcl)

theorem close_inv (s : WSState) (env : CloseEnv) (hinv : WsInv s)
    (hwf : closeEnvWF env) : WsInv (close s env).state := by
  unfold close
  split
  · exact hinv
  · refine closeBody_inv _ env ?_ hwf
    intro hcl
    exact hinv (by simpa [cancelHeartbeat_closed] using hcl)

theorem raceMid_inv (s : WSState) (renv : RecvEnv) (hinv : WsInv s)
    (hwf : recvEnvWF renv) : WsInv (raceMid s renv) := by
  unfold raceMid
  have hmid := recvAwait_inv s renv hinv hwf
  split
  · rename_i s1 heq
    rw [heq] at hmid
    intro hcl
    exact hmid (by simpa [RecvOut.state] using hcl)
  · exact hmid

theorem closeInterlocked_inv (s : WSState) (renv : RecvEnv) (env : CloseEnv)
    (hinv : WsInv s) (hwf1 : recvEnvWF renv) (hwf2 : closeEnvWF env) :
    WsInv (closeInterlocked s renv env).state := by
  unfold closeInterlocked
  split
  · exact hinv
  · refine closeBody_inv _ env (raceMid_inv _ renv ?_ hwf1) hwf2
    intro hcl
    exact hinv (by simpa [cancelHeartbeat_closed] using hcl)

theorem writeEofState_inv (s : WSState) (env : CloseEnv) (hinv : WsInv s)
    (hwf : closeEnvWF env) : WsInv (writeEofState s env) := by
  unfold writeEofState
  have hcl := close_inv s env hinv hwf
  split
  · exact hinv
  · split
    · exact hinv
    · split
      · rename_i heq
        rw [heq] at hcl
        intro h1
        exact hcl (by simpa [CloseOut.state] using h1)
      · rename_i heq
        rw [heq] at hcl
        intro h1
        exact hcl (by simpa [CloseOut.state] using h1)

theorem prepareStep_inv (s : WSState) (hinv : WsInv s) :
    WsInv (prepareStep s) := by
  unfold prepareStep
  intro hcl
  have := hinv (by simpa [resetHeartbeat_closed] using hcl)
  simpa [resetHeartbeat_closeCode, resetHeartbeat_closing] using this

theorem sendHeartbeat_inv (s : WSState) (hinv : WsInv s) :
    WsInv (sendHeartbeat s) := by
  simp only [sendHeartbeat]
  split <;> intro hcl <;> exact hinv (by simpa using hcl)

theorem pongNotReceived_inv (s : WSState) (hinv : WsInv s) :
    WsInv (pongNotReceived s) := by
  simp only [pongNotReceived]
  split
  · intro _; simp
  · intro hcl
    exact hinv (by simpa using hcl)

theorem step_inv (s : WSState) (l : Label) (s1 : WSState)
    (hs : Step s l s1) (hinv : WsInv s) : WsInv s1 := by
  cases hs
  case prepareS => exact prepareStep_inv s hinv
  case recvStartS =>
    intro hcl
    exact hinv (by simpa using hcl)
  case recvFinishS env _ hw => exact recvAwait_inv s env hinv hw
  case recvS env _ hw => exact recvIter_inv s env hinv hw
  case closeS env _ hw => exact close_inv s env hinv hw
  case closeRaceS renv env _ _ hw1 hw2 => exact closeInterlocked_inv s renv env hinv hw1 hw2
  case writeEofS env _ hw => exact writeEofState_inv s env hinv hw
  case hbFireS _ => exact sendHeartbeat_inv s hinv
  case pongFireS _ => exact pongNotReceived_inv s hinv

theorem reach_inv (s : WSState) (tr : List Label) (h : Reach s tr) : WsInv s := by
  induction h with
  | init t rt ac ap hb =>
    intro hcl
    simp [initState] at hcl
  | step s0 tr0 l s1 _ hs ih => exact step_inv s0 l s1 hs ih

/-! ### Claim theorems -/

theorem headerGet_accept (protocols : List String) (compressOn : Bool)
    (extParse : Option String → Nat × Bool) (extGen : Nat → Bool → String)
    (req : HSRequest) :
    headerGet (handshakeOut protocols compressOn extParse extGen req).responseHeaders
      "Sec-WebSocket-Accept" = some (wsAccept (req.secWebSocketKey.getD "")) := by
  have h1 : (("Upgrade" : String) == "Sec-WebSocket-Accept") = false := by decide
  have h2 : (("Connection" : String) == "Sec-WebSocket-Accept") = false := by decide
  have h3 : (("Sec-WebSocket-Accept" : String) == "Sec-WebSocket-Accept") = true := by decide
  unfold handshakeOut headerGet
  dsimp only
  repeat' split
  all_goals simp [List.find?, h1, h2, h3]

/-- C1: for every handshake request that passes validation, the
Sec-WebSocket-Accept header of the response equals
`base64(SHA1(ascii(key) || "258EAFA5-E914-47DA-95CA-C5AB0DC85B11"))`; in
particular the sample key `dGhlIHNhbXBsZSBub25jZQ==` yields
`s3pPLMBiTxaQ9kYGzzhZRbK+xOo=`. -/
theorem c1_accept_token :
    (∀ (protocols : List String) (compressOn : Bool)
       (extParse : Option String → Nat × Bool) (extGen : Nat → Bool → String)
       (req : HSRequest) (out : HSOk) (k : String),
       handshake protocols compressOn extParse extGen req = .ok out →
       req.secWebSocketKey = some k →
       headerGet out.responseHeaders "Sec-WebSocket-Accept" = some (wsAccept k)) ∧
    wsAccept sampleKey = "s3pPLMBiTxaQ9kYGzzhZRbK+xOo=" ∧
    headerGet sampleOut.responseHeaders "Sec-WebSocket-Accept" =
      some "s3pPLMBiTxaQ9kYGzzhZRbK+xOo=" := by
  refine ⟨?_, by decide, by decide⟩
  intro protocols compressOn extParse extGen req out k hok hkey
  unfold handshake at hok
  repeat' split at hok
  all_goals try simp only [reduceCtorEq] at hok
  simp only [Except.ok.injEq] at hok
  subst hok
  have := headerGet_accept protocols compressOn extParse extGen req
  rwa [hkey] at this

theorem c1_accept_token_witness :
    handshake [] false noExtParse noExtGen sampleRequest = .ok sampleOut ∧
    headerGet sampleOut.responseHeaders "Sec-WebSocket-Accept" =
      some (wsAccept sampleKey) :=
  ⟨by decide,
   c1_accept_token.1 [] false noExtParse noExtGen sampleRequest sampleOut
     sampleKey (by decide) rfl⟩

/-- C8: subprotocol negotiation splits the client header on commas, trims
each token and picks the first client-offered token in the server list; with
server `["chat.v2", "chat.v1"]` and offer `"chat.v1, chat.v2"` the result is
`chat.v1` and the response carries it; with no overlap the handshake still
succeeds, the protocol is `none` and the response header is omitted. -/
theorem c8_subprotocol :
    (∀ (protocols : List String) (compressOn : Bool)
       (extParse : Option String → Nat × Bool) (extGen : Nat → Bool → String)
       (req : HSRequest) (out : HSOk) (hdr : String),
       handshake protocols compressOn extParse extGen req = .ok out →
       req.secWebSocketProtocol = some hdr →
       out.protocol =
         ((pySplitComma hdr).map pyStrip).find? (fun p => protocols.contains p)) ∧
    (handshake ["chat.v2", "chat.v1"] false noExtParse noExtGen protoRequest =
        .ok protoOut ∧
     protoOut.protocol = some "chat.v1" ∧
     headerGet protoOut.responseHeaders "Sec-WebSocket-Protocol" = some "chat.v1") ∧
    (handshake ["chat.v2", "chat.v1"] false noExtParse noExtGen noOverlapRequest =
        .ok noOverlapOut ∧
     noOverlapOut.protocol = none ∧
     headerGet noOverlapOut.responseHeaders "Sec-WebSocket-Protocol" = none) := by
  refine ⟨?_, ⟨by decide, by decide, by decide⟩, ⟨by decide, by decide, by decide⟩⟩
  intro protocols compressOn extParse extGen req out hdr hok hhdr
  unfold handshake at hok
  repeat' split at hok
  all_goals try simp only [reduceCtorEq] at hok
  simp only [Except.ok.injEq] at hok
  subst hok
  simp [handshakeOut, negotiateProtocol, hhdr]

theorem c8_subprotocol_witness :
    protoOut.protocol =
      ((pySplitComma "chat.v1, chat.v2").map pyStrip).find?
        (fun p => (["chat.v2", "chat.v1"] : List String).contains p) :=
  c8_subprotocol.1 ["chat.v2", "chat.v1"] false noExtParse noExtGen protoRequest
    protoOut "chat.v1, chat.v2" (by decide) rfl

/-- C10: `receive(timeout=0)` does not impose a zero-length deadline: line
389 combines the explicit argument with the configured value by Python
truthiness (`timeout or self._receive_timeout`), so an explicit 0 falls
back to `receive_timeout`, or to an unbounded wait when that is unset
(`rt = none`). -/
theorem c10_zero_timeout (rt : Option Rat) :
    receiveEffectiveTimeout (some 0) rt = rt ∧
    receiveEffectiveTimeout none rt = rt := by
  unfold receiveEffectiveTimeout pyTruthy
  simp

/-- C6: when a heartbeat is configured and the endpoint is open, the ping
timer firing arms the pong deadline; if that deadline fires (no pong, with
the request/transport still attached), the endpoint is closed with code
1006, a Timeout exception is recorded, the transport is force-closed, and
no timer remains armed. -/
theorem c6_heartbeat_timeout (s : WSState) (h1 : s.heartbeat.isSome = true)
    (h2 : s.closed = false) (h3 : s.hasTransport = true) :
    (sendHeartbeat s).pongArmed = true ∧
    (pongNotReceived (sendHeartbeat s)).closed = true ∧
    (pongNotReceived (sendHeartbeat s)).closeCode = some 1006 ∧
    (pongNotReceived (sendHeartbeat s)).exc = some .timeoutE ∧
    (pongNotReceived (sendHeartbeat s)).transportClosed = true ∧
    (pongNotReceived (sendHeartbeat s)).heartbeatArmed = false ∧
    (pongNotReceived (sendHeartbeat s)).pongArmed = false := by
  unfold sendHeartbeat pongNotReceived
  simp [h1, h2, h3]

theorem c6_heartbeat_timeout_witness :
    (sendHeartbeat demoPreparedHB).pongArmed = true ∧
    (pongNotReceived (sendHeartbeat demoPreparedHB)).closed = true ∧
    (pongNotReceived (sendHeartbeat demoPreparedHB)).closeCode = some 1006 ∧
    (pongNotReceived (sendHeartbeat demoPreparedHB)).exc = some .timeoutE ∧
    (pongNotReceived (sendHeartbeat demoPreparedHB)).transportClosed = true ∧
    (pongNotReceived (sendHeartbeat demoPreparedHB)).heartbeatArmed = false ∧
    (pongNotReceived (sendHeartbeat demoPreparedHB)).pongArmed = false :=
  c6_heartbeat_timeout demoPreparedHB (by decide) (by decide) (by decide)

/-- C7: a `receive()` on an endpoint that is already closed increments the
connection-lost counter; the call returns the CLOSED sentinel while the
counter stays below the threshold 5, and raises once the counter reaches
the threshold (hence on every later call too, as the counter only grows). -/
theorem c7_closed_receive (s : WSState) (env : RecvEnv)
    (h1 : s.hasReader = true) (h2 : s.waiting = false) (h3 : s.closed = true) :
    (recvIter s env).state.connLost = s.connLost + 1 ∧
    (s.connLost + 1 < THRESHOLD_CONNLOST_ACCESS →
      recvIter s env =
        .ret WS_CLOSED_MESSAGE { s with connLost := s.connLost + 1 }) ∧
    (THRESHOLD_CONNLOST_ACCESS ≤ s.connLost + 1 →
      recvIter s env = .raise .connClosed { s with connLost := s.connLost + 1 }) := by
  have key : recvIter s env =
      if THRESHOLD_CONNLOST_ACCESS ≤ s.connLost + 1 then
        .raise .connClosed { s with connLost := s.connLost + 1 }
      else .ret WS_CLOSED_MESSAGE { s with connLost := s.connLost + 1 } := by
    unfold recvIter
    simp [h1, h2, h3]
  refine ⟨?_, ?_, ?_⟩
  · rw [key]
    split <;> rfl
  · intro hlt
    rw [key, if_neg (by omega)]
  · intro hge
    rw [key, if_pos hge]

theorem c7_closed_receive_witness :
    recvIter demoPongClosed sentinelEnv =
      .ret WS_CLOSED_MESSAGE { demoPongClosed with connLost := demoPongClosed.connLost + 1 } :=
  (c7_closed_receive demoPongClosed sentinelEnv (by decide) (by decide)
    (by decide)).2.1 (by decide)

theorem closeBody_ret_true (s : WSState) (env : CloseEnv) (b : Bool)
    (s1 : WSState) (h : s.closed = false)
    (heq : closeBody s env = .ret b s1) : b = true ∧ s1.closed = true := by
  rcases env with ⟨wc, dr, rd⟩
  cases wc <;> cases dr <;> cases rd <;>
    simp only [closeBody, h, Bool.false_eq_true, if_false] at heq <;>
    (repeat' split at heq) <;>
    (cases heq) <;> exact ⟨rfl, rfl⟩

/-- C2 (amended): a `close()` on a not-yet-closed endpoint that completes
returns true and closes the endpoint; a `close()` on an already-closed
endpoint returns false and changes nothing except cancelling the heartbeat
timers; and `closed` never becomes false again under any modelled
operation.  (The original claim fails in two ways: the pong-deadline timer
can close the endpoint first, making the first `close()` call return false,
and a second `close()` does cancel a re-armed heartbeat timer.) -/
theorem c2_close_idempotent :
    (∀ (s : WSState) (env : CloseEnv), s.hasWriter = true → s.closed = true →
       close s env = .ret false (cancelHeartbeat s)) ∧
    (∀ (s : WSState) (env : CloseEnv) (b : Bool) (s1 : WSState),
       s.hasWriter = true → s.closed = false →
       close s env = .ret b s1 → b = true ∧ s1.closed = true) ∧
    (∀ (s : WSState) (l : Label) (s1 : WSState), Step s l s1 →
       s.closed = true → s1.closed = true) := by
  refine ⟨?_, ?_, step_closed_mono⟩
  · intro s env hw hc
    unfold close
    rw [if_neg (by simp [hw])]
    exact closeBody_closed _ env (by simpa [cancelHeartbeat_closed] using hc)
  · intro s env b s1 hw hc heq
    unfold close at heq
    rw [if_neg (by simp [hw])] at heq
    exact closeBody_ret_true _ env b s1 (by simpa [cancelHeartbeat_closed] using hc) heq

theorem c2_close_idempotent_witness :
    (close demoPongClosed happyCloseEnv = .ret false (cancelHeartbeat demoPongClosed)) ∧
    (true = true ∧ (CloseOut.state (close demoPrepared happyCloseEnv)).closed = true) :=
  ⟨c2_close_idempotent.1 demoPongClosed happyCloseEnv (by decide) (by decide),
   c2_close_idempotent.2.1 demoPrepared happyCloseEnv true
     (CloseOut.state (close demoPrepared happyCloseEnv)) (by decide) (by decide)
     (by decide)⟩

/-- C2 counterexample.  First part: after prepare, ping-timer fire and
pong-deadline fire - a trace containing no `close()` at all - the first
ever `close()` call completes and returns false, not true.  Second part:
after a `close()` that raced an in-flight `receive()` on a heartbeat
endpoint, the endpoint is closed but the woken receive has re-armed the
ping timer, so a subsequent `close()` returns false yet changes the
endpoint state (it cancels that timer). -/
theorem c2_close_idempotent_counterexample :
    (Reach demoPongClosed [.prepareL, .hbFireL, .pongFireL] ∧
     close demoPongClosed happyCloseEnv = .ret false (cancelHeartbeat demoPongClosed)) ∧
    (Reach demoRaceStateHB [.prepareL, .recvStartL, .closeRaceL sentinelEnv happyCloseEnv] ∧
     demoRaceStateHB.closed = true ∧
     demoRaceStateHB.heartbeatArmed = true ∧
     close demoRaceStateHB happyCloseEnv = .ret false (cancelHeartbeat demoRaceStateHB) ∧
     cancelHeartbeat demoRaceStateHB ≠ demoRaceStateHB) := by
  refine ⟨⟨?_, by decide⟩, ?_, by decide, by decide, by decide, by decide⟩
  · have h0 := Reach.init 10 none true true (some 1)
    have h1 := Reach.step _ _ _ _ h0 (Step.prepareS _ (by decide))
    have h2 := Reach.step _ _ _ _ h1 (Step.hbFireS _ (by decide))
    exact Reach.step _ _ _ _ h2 (Step.pongFireS _ (by decide))
  · have h0 := Reach.init 10 none true true (some 1)
    have h1 := Reach.step _ _ _ _ h0 (Step.prepareS _ (by decide))
    have h2 := Reach.step _ _ _ _ h1
      (Step.recvStartS _ (by decide) (by decide) (by decide) (by decide))
    exact Reach.step _ _ _ _ h2
      (Step.closeRaceS _ sentinelEnv happyCloseEnv (by decide) (by decide)
        (by decide) (by decide))

/-- C3 (amended): in every reachable state, if `closed` holds then either a
close code is recorded or `closing` is set; the unamended claim (a close
code is always recorded) fails on the interlock path, see the
counterexample. -/
theorem c3_closed_code_invariant (s : WSState) (tr : List Label)
    (h : Reach s tr) (hc : s.closed = true) :
    s.closeCode.isSome = true ∨ s.closing = true :=
  reach_inv s tr h hc

theorem c3_closed_code_invariant_witness :
    demoPongClosed.closeCode.isSome = true ∨ demoPongClosed.closing = true := by
  refine c3_closed_code_invariant demoPongClosed
    [.prepareL, .hbFireL, .pongFireL] ?_ (by decide)
  have h0 := Reach.init 10 none true true (some 1)
  have h1 := Reach.step _ _ _ _ h0 (Step.prepareS _ (by decide))
  have h2 := Reach.step _ _ _ _ h1 (Step.hbFireS _ (by decide))
  exact Reach.step _ _ _ _ h2 (Step.pongFireS _ (by decide))

/-- C3 counterexample: complete a `receive()` and a racing `close()` (the
reader interlock of lines 321-323); the woken receive consumes the CLOSING
sentinel and sets `closing`, so `close()` returns at line 341 without ever
assigning `close_code` - the endpoint ends closed with `close_code` null,
refuting the claimed invariant. -/
theorem c3_closed_code_counterexample :
    Reach demoRaceState [.prepareL, .recvStartL, .closeRaceL sentinelEnv happyCloseEnv] ∧
    demoRaceState.closed = true ∧ demoRaceState.closeCode = none := by
  refine ⟨?_, by decide, by decide⟩
  have h0 := Reach.init 10 none true true none
  have h1 := Reach.step _ _ _ _ h0 (Step.prepareS _ (by decide))
  have h2 := Reach.step _ _ _ _ h1
    (Step.recvStartS _ (by decide) (by decide) (by decide) (by decide))
  exact Reach.step _ _ _ _ h2
    (Step.closeRaceS _ sentinelEnv happyCloseEnv (by decide) (by decide)
      (by decide) (by decide))

/-- C4 (amended): when the peer sends CLOSE with code `c`, the receive that
returns it leaves `close_code = c` and `closing = true`; with autoclose the
endpoint is also closed, provided the close-frame write and drain succeed
(modelled by the `⟨.ok, .ok, rd⟩` environment of the nested close; if that
write fails, `close_code` is overwritten to 1006, see the counterexample);
without autoclose the endpoint stays open. -/
theorem c4_close_code_propagation (s : WSState) (rd : ReadRes) (c : Nat)
    (h1 : s.hasReader = true) (h2 : s.waiting = false) (h3 : s.closed = false)
    (h4 : s.closing = false) (h5 : s.hasWriter = true) :
    RecvOut.retMsg (recvIter s ⟨.msg ⟨.closeK, some c⟩, ⟨.ok, .ok, rd⟩⟩) =
      some ⟨.closeK, some c⟩ ∧
    (RecvOut.state (recvIter s ⟨.msg ⟨.closeK, some c⟩, ⟨.ok, .ok, rd⟩⟩)).closeCode =
      some c ∧
    (RecvOut.state (recvIter s ⟨.msg ⟨.closeK, some c⟩, ⟨.ok, .ok, rd⟩⟩)).closing =
      true ∧
    (s.autoclose = true →
      (RecvOut.state (recvIter s ⟨.msg ⟨.closeK, some c⟩, ⟨.ok, .ok, rd⟩⟩)).closed =
        true) ∧
    (s.autoclose = false →
      (RecvOut.state (recvIter s ⟨.msg ⟨.closeK, some c⟩, ⟨.ok, .ok, rd⟩⟩)).closed =
        false) := by
  have key : recvIter s ⟨.msg ⟨.closeK, some c⟩, ⟨.ok, .ok, rd⟩⟩ =
      recvAwait { s with waiting := true } ⟨.msg ⟨.closeK, some c⟩, ⟨.ok, .ok, rd⟩⟩ := by
    unfold recvIter
    simp [h1, h2, h3, h4]
  rw [key]
  simp only [recvAwait]
  split
  case isFalse hfalse => exact absurd trivial hfalse
  case isTrue _ =>
    split
    case isTrue hguard =>
      have hac1 : s.autoclose = true := by
        have hg2 := hguard.2
        simpa [resetHeartbeat_autoclose] using hg2
      simp [closeFromReceive, closeBody, afterClose, RecvOut.retMsg, RecvOut.state,
        cancelHeartbeat, resetHeartbeat_closed, resetHeartbeat_closing,
        resetHeartbeat_closeCode, resetHeartbeat_autoclose, resetHeartbeat_hasWriter,
        h3, h5, hac1]
    case isFalse hguard =>
      have hac0 : s.autoclose = false := by
        by_contra hx
        have hx1 : s.autoclose = true := by simpa using hx
        refine hguard ⟨?_, ?_⟩
        · simp [resetHeartbeat_closed, h3]
        · simpa [resetHeartbeat_autoclose] using hx1
      simp [RecvOut.retMsg, RecvOut.state, resetHeartbeat_closed,
        resetHeartbeat_closeCode, resetHeartbeat_autoclose, h3, hac0]

theorem c4_close_code_propagation_witness :
    RecvOut.retMsg (recvIter demoPrepared ⟨.msg ⟨.closeK, some 1001⟩, ⟨.ok, .ok, .eof⟩⟩) =
      some ⟨.closeK, some 1001⟩ ∧
    (RecvOut.state (recvIter demoPrepared
      ⟨.msg ⟨.closeK, some 1001⟩, ⟨.ok, .ok, .eof⟩⟩)).closeCode = some 1001 ∧
    (RecvOut.state (recvIter demoPrepared
      ⟨.msg ⟨.closeK, some 1001⟩, ⟨.ok, .ok, .eof⟩⟩)).closing = true ∧
    (RecvOut.state (recvIter demoPrepared
      ⟨.msg ⟨.closeK, some 1001⟩, ⟨.ok, .ok, .eof⟩⟩)).closed = true :=
  have h := c4_close_code_propagation demoPrepared .eof 1001 (by decide) (by decide)
    (by decide) (by decide) (by decide)
  ⟨h.1, h.2.1, h.2.2.1, h.2.2.2.1 (by decide)⟩

/-- C4 counterexample: the peer sends CLOSE with code 1001, autoclose is on,
and the close-frame write fails with a generic error; `receive` still
returns the CLOSE message, but `close_code` ends up 1006, not 1001. -/
theorem c4_close_code_counterexample :
    RecvOut.retMsg (recvIter demoPrepared
      ⟨.msg ⟨.closeK, some 1001⟩, ⟨.errored, .ok, .eof⟩⟩) = some ⟨.closeK, some 1001⟩ ∧
    (RecvOut.state (recvIter demoPrepared
      ⟨.msg ⟨.closeK, some 1001⟩, ⟨.errored, .ok, .eof⟩⟩)).closeCode = some 1006 :=
  ⟨by decide, by decide⟩

/-- C5 (amended): cancellation of any awaited step of `receive`/`close`,
and a timeout of receive's read or of close's write/drain step, latch
`close_code = 1006` and re-raise; but a timeout of close's final read of
the peer CLOSE is captured, not re-raised: close records 1006 and the
Timeout exception and returns true. -/
theorem c5_cancel_timeout_latch :
    (∀ (s : WSState) (cenv : CloseEnv), s.hasReader = true → s.waiting = false →
       s.closed = false → s.closing = false →
       recvIter s ⟨.cancelled, cenv⟩ =
         .raise .cancelled { s with waiting := false, closeCode := some 1006 } ∧
       recvIter s ⟨.timedOut, cenv⟩ =
         .raise .timedOut { s with waiting := false, closeCode := some 1006 }) ∧
    (∀ (s : WSState) (dr : OpRes) (rd : ReadRes), s.hasWriter = true →
       s.closed = false →
       close s ⟨.cancelled, dr, rd⟩ =
         .raise .cancelled
           { cancelHeartbeat s with closed := true, closeCode := some 1006 } ∧
       close s ⟨.timedOut, dr, rd⟩ =
         .raise .timedOut
           { cancelHeartbeat s with closed := true, closeCode := some 1006 }) ∧
    (∀ (s : WSState) (rd : ReadRes), s.hasWriter = true → s.closed = false →
       close s ⟨.ok, .cancelled, rd⟩ =
         .raise .cancelled
           { cancelHeartbeat s with closed := true, closeCode := some 1006 } ∧
       close s ⟨.ok, .timedOut, rd⟩ =
         .raise .timedOut
           { cancelHeartbeat s with closed := true, closeCode := some 1006 }) ∧
    (∀ (s : WSState), s.hasWriter = true → s.closed = false → s.closing = false →
       close s ⟨.ok, .ok, .cancelled⟩ =
         .raise .cancelled
           { cancelHeartbeat s with closed := true, closeCode := some 1006 } ∧
       close s ⟨.ok, .ok, .timedOut⟩ =
         .ret true
           { cancelHeartbeat s with
               closed := true, closeCode := some 1006,
               exc := some .timeoutE }) := by
  refine ⟨?_, ?_, ?_, ?_⟩
  · intro s cenv h1 h2 h3 h4
    constructor <;>
      (unfold recvIter
       simp [recvAwait, h1, h2, h3, h4])
  · intro s dr rd h5 h3
    constructor <;>
      (unfold close closeBody
       simp [cancelHeartbeat, h5, h3])
  · intro s rd h5 h3
    constructor <;>
      (unfold close closeBody
       simp [cancelHeartbeat, h5, h3])
  · intro s h5 h3 h4
    constructor <;>
      (unfold close closeBody
       simp [cancelHeartbeat, h5, h3, h4])

theorem c5_cancel_timeout_latch_witness :
    close demoPrepared ⟨.ok, .ok, .cancelled⟩ =
      .raise .cancelled
        { cancelHeartbeat demoPrepared with closed := true, closeCode := some 1006 } ∧
    close demoPrepared ⟨.ok, .ok, .timedOut⟩ =
      .ret true
        { cancelHeartbeat demoPrepared with
            closed := true, closeCode := some 1006,
            exc := some .timeoutE } :=
  c5_cancel_timeout_latch.2.2.2 demoPrepared (by decide) (by decide) (by decide)

/-- C5 counterexample: a timeout of the awaited read in `close()` (line
347, waiting for the peer CLOSE) is caught by the generic handler of lines
351-354, so `close` completes and returns true instead of re-raising - the
timeout is swallowed, contradicting the claim as stated. -/
theorem c5_swallowed_timeout_counterexample :
    close demoPrepared ⟨.ok, .ok, .timedOut⟩ =
      .ret true
        { cancelHeartbeat demoPrepared with
            closed := true, closeCode := some 1006,
            exc := some .timeoutE } := by decide

theorem closeBody_waiting (s : WSState) (env : CloseEnv) :
    (closeBody s env).state.waiting = s.waiting := by
  by_cases hc : s.closed = true
  · rw [closeBody_closed s env hc]
    rfl
  · have hc0 : s.closed = false := by simpa using hc
    rcases env with ⟨wc, dr, rd⟩
    cases wc <;> cases dr <;> cases rd <;>
      simp only [closeBody, hc0, Bool.false_eq_true, if_false] <;>
      (repeat' split) <;> rfl

theorem closeFromReceive_waiting (s : WSState) (env : CloseEnv) :
    (closeFromReceive s env).state.waiting = s.waiting := by
  unfold closeFromReceive
  split
  · rfl
  · rw [closeBody_waiting]
    rfl

theorem recvAwait_waiting (s : WSState) (env : RecvEnv) :
    (recvAwait s env).state.waiting = false := by
  rcases env with ⟨rd, cenv⟩
  cases rd <;> simp only [recvAwait, afterClose_state]
  case cancelled => rfl
  case timedOut => rfl
  case eof => rw [closeFromReceive_waiting]
  case wsErr c => rw [closeFromReceive_waiting]
  case errored => rw [closeFromReceive_waiting]
  case msg m =>
    (repeat' split) <;>
      first
        | (rw [afterClose_state, closeFromReceive_waiting])
        | rfl

/-- C9 (amended): whenever the awaited read of `receive` completes - with a
message, a timeout, a cancellation, or any error - the waiting one-shot is
resolved and cleared; but the heartbeat ping timer is reset only when the
read delivered a message (here a TEXT frame); on timeout or cancellation
the timer is left exactly as it was. -/
theorem c9_waiter_and_heartbeat :
    (∀ (s : WSState) (env : RecvEnv), s.hasReader = true → s.waiting = false →
       s.closed = false → s.closing = false →
       (RecvOut.state (recvIter s env)).waiting = false) ∧
    (∀ (s : WSState) (cenv : CloseEnv) (q : Rat),
       s.hasReader = true → s.waiting = false → s.closed = false →
       s.closing = false → s.heartbeat = some q →
       (RecvOut.state (recvIter s ⟨.msg ⟨.txt, none⟩, cenv⟩)).heartbeatArmed = true) ∧
    (∀ (s : WSState) (cenv : CloseEnv),
       s.hasReader = true → s.waiting = false → s.closed = false → s.closing = false →
       (RecvOut.state (recvIter s ⟨.timedOut, cenv⟩)).heartbeatArmed =
         s.heartbeatArmed ∧
       (RecvOut.state (recvIter s ⟨.cancelled, cenv⟩)).heartbeatArmed =
         s.heartbeatArmed) := by
  refine ⟨?_, ?_, ?_⟩
  · intro s env h1 h2 h3 h4
    have key : recvIter s env = recvAwait { s with waiting := true } env := by
      unfold recvIter
      simp [h1, h2, h3, h4]
    rw [key, recvAwait_waiting]
  · intro s cenv q h1 h2 h3 h4 hq
    have key : recvIter s ⟨.msg ⟨.txt, none⟩, cenv⟩ =
        recvAwait { s with waiting := true } ⟨.msg ⟨.txt, none⟩, cenv⟩ := by
      unfold recvIter
      simp [h1, h2, h3, h4]
    rw [key]
    simp [recvAwait, RecvOut.state, resetHeartbeat, cancelHeartbeat, hq]
  · intro s cenv h1 h2 h3 h4
    constructor <;>
      (have key : ∀ r, recvIter s (⟨r, cenv⟩ : RecvEnv) =
          recvAwait { s with waiting := true } ⟨r, cenv⟩ := by
        intro r
        unfold recvIter
        simp [h1, h2, h3, h4]
       rw [key]
       simp [recvAwait, RecvOut.state])

theorem c9_waiter_and_heartbeat_witness :
    (RecvOut.state (recvIter demoPreparedHB
      ⟨.msg ⟨.txt, none⟩, happyCloseEnv⟩)).heartbeatArmed = true ∧
    (RecvOut.state (recvIter demoPreparedHB
      ⟨.timedOut, happyCloseEnv⟩)).waiting = false :=
  ⟨c9_waiter_and_heartbeat.2.1 demoPreparedHB happyCloseEnv 1 (by decide) (by decide)
     (by decide) (by decide) (by decide),
   c9_waiter_and_heartbeat.1 demoPreparedHB ⟨.timedOut, happyCloseEnv⟩ (by decide)
     (by decide) (by decide) (by decide)⟩

/-- C9 counterexample: a receive is in flight, the ping timer fires during
the wait (so it is spent), and the read completes by timeout; the heartbeat
ping timer is NOT reset - it stays unarmed although a heartbeat is
configured - contradicting the claim that every completion resets it.  The
waiter is cleared, consistent with the amended claim. -/
theorem c9_heartbeat_not_reset_counterexample :
    Reach demoRecvTimeout
      [.prepareL, .recvStartL, .hbFireL, .recvFinishL ⟨.timedOut, happyCloseEnv⟩] ∧
    demoRecvTimeout.heartbeat = some 1 ∧
    demoRecvTimeout.waiting = false ∧
    demoRecvTimeout.heartbeatArmed = false := by
  refine ⟨?_, by decide, by decide, by decide⟩
  have h0 := Reach.init 10 none true true (some 1)
  have h1 := Reach.step _ _ _ _ h0 (Step.prepareS _ (by decide))
  have h2 := Reach.step _ _ _ _ h1
    (Step.recvStartS _ (by decide) (by decide) (by decide) (by decide))
  have h3 := Reach.step _ _ _ _ h2 (Step.hbFireS _ (by decide))
  exact Reach.step _ _ _ _ h3 (Step.recvFinishS _ _ (by decide) (by decide))
